import Mathlib

/-!
Shallow embedding of `src/main.py` of the Looker content-cleanup automation.

Result rows from the System Activity query are Python dictionaries mapping
field names to JSON values; remote SDK calls are modelled by an environment
`Env` whose operations may either return a value or raise (an `Except.error`
carrying the exception message).  Every embedded operation additionally
reports the list of remote calls it issued, so that ordering and dry-run
properties can be stated about the call trace.
-/

namespace Looker

/-- A JSON value appearing in a System Activity result row: `null`, a string,
or a number (content ids are strings or integers). -/
inductive Value
  | null
  | str (s : String)
  | num (n : Int)
deriving DecidableEq, Repr

/-- Python `str(v)`: the string itself, `"None"` for `None`, decimal for ints. -/
def Value.pyStr : Value → String
  | Value.null => "None"
  | Value.str s => s
  | Value.num n => toString n

/-- A result row: a Python dict from field names to values (keys unique,
first binding wins, as in a dict). -/
def Row := List (String × Value)

instance : DecidableEq Row := by
  unfold Row
  infer_instance

/-- Dictionary lookup `row.get(k)` without raising: `none` when the key is
absent. -/
def Row.get? (r : Row) (k : String) : Option Value :=
  match r with
  | [] => none
  | (k₀, v) :: rest => if k₀ = k then some v else Row.get? rest k

/-- The Python `KeyError` raised by `row[k]` on a missing key `k`. -/
structure KeyError where
  key : String
deriving DecidableEq, Repr

/-- Python subscript `row[k]`: the value, or a `KeyError` naming the key. -/
def keyGet (r : Row) (k : String) : Except KeyError Value :=
  match Row.get? r k with
  | some v => Except.ok v
  | none => Except.error ⟨k⟩

/-- `get_dashboard_ids` of `src/main.py`: the list comprehension
`[d['dashboard.id'] for d in content if d['content_usage.content_type'] == 'dashboard' and d['dashboard.id'] is not None]`,
with `KeyError`s propagating out of the comprehension. -/
def get_dashboard_ids : List Row → Except KeyError (List Value)
  | [] => Except.ok []
  | row :: rest =>
    match keyGet row "content_usage.content_type" with
    | Except.error e => Except.error e
    | Except.ok ct =>
      if ct = Value.str "dashboard" then
        match keyGet row "dashboard.id" with
        | Except.error e => Except.error e
        | Except.ok did =>
          if did = Value.null then get_dashboard_ids rest
          else
            match get_dashboard_ids rest with
            | Except.error e => Except.error e
            | Except.ok tail => Except.ok (did :: tail)
      else get_dashboard_ids rest

/-- `get_look_ids` of `src/main.py`: the list comprehension
`[l['look.id'] for l in content if l['content_usage.content_type'] == 'look']`
(note: no `is not None` guard, unlike `get_dashboard_ids`). -/
def get_look_ids : List Row → Except KeyError (List Value)
  | [] => Except.ok []
  | row :: rest =>
    match keyGet row "content_usage.content_type" with
    | Except.error e => Except.error e
    | Except.ok ct =>
      if ct = Value.str "look" then
        match keyGet row "look.id" with
        | Except.error e => Except.error e
        | Except.ok lid =>
          match get_look_ids rest with
          | Except.error e => Except.error e
          | Except.ok tail => Except.ok (lid :: tail)
      else get_look_ids rest

/-- The spec's `dashboardIds` (§4.3): rows where contentType == dashboard AND
dashboardId is non-null, preserving row order, duplicates preserved. -/
def dashboardIdsSpec (content : List Row) : List Value :=
  content.filterMap fun row =>
    if Row.get? row "content_usage.content_type" = some (Value.str "dashboard") then
      match Row.get? row "dashboard.id" with
      | some did => if did = Value.null then none else some did
      | none => none
    else none

/-- The spec's `lookIds` (§4.3): rows where contentType == look, look id taken
as-is (no non-null filter). -/
def lookIdsSpec (content : List Row) : List Value :=
  content.filterMap fun row =>
    if Row.get? row "content_usage.content_type" = some (Value.str "look") then
      Row.get? row "look.id"
    else none

/-- The body of `models40.WriteQuery` as constructed in `src/main.py` (the
fields the script sets). -/
structure WriteQuery where
  model : String
  view : String
  fields : List String
  pivots : Option (List String)
  fill_fields : Option (List String)
  filters : List (String × String)
  filter_expression : Option String
  sorts : List String
  limit : String
  dynamic_fields : Option String
deriving DecidableEq, Repr

/-- `models40.WriteDashboard` as used by `soft_delete_dashboard`: only the
`deleted` field is set. -/
structure WriteDashboard where
  deleted : Option Bool
deriving DecidableEq, Repr

/-- `models40.WriteLookWithQuery` as used by `soft_delete_look`: only the
`deleted` field is set. -/
structure WriteLookWithQuery where
  deleted : Option Bool
deriving DecidableEq, Repr

/-- `models40.ScheduledPlanDestination` as built by `send_content_notification`. -/
structure ScheduledPlanDestination where
  format : String
  type : String
  address : String
  message : String
  apply_formatting : Bool
  apply_vis : Bool
deriving DecidableEq, Repr

/-- `models40.WriteScheduledPlan` as built by `send_content_notification`. -/
structure WriteScheduledPlan where
  name : String
  query_id : String
  scheduled_plan_destination : List ScheduledPlanDestination
deriving DecidableEq, Repr

/-- One remote SDK call issued by the script. -/
inductive RemoteCall
  | create_query (body : WriteQuery)
  | run_query (query_id : String)
  | update_dashboard (dashboard_id : String) (body : WriteDashboard)
  | update_look (look_id : String) (body : WriteLookWithQuery)
  | delete_dashboard (dashboard_id : String)
  | delete_look (look_id : String)
  | scheduled_plan_run_once (body : WriteScheduledPlan)
deriving DecidableEq, Repr

/-- Behaviour of the remote Looker instance for one run: each SDK operation
either returns a value or raises, `Except.error` carrying the exception
message.  `run_query` folds in the `json.loads` parse of the returned JSON;
`today` is `datetime.today().strftime` of the run. -/
structure Env where
  create_query : WriteQuery → Except String String
  run_query : String → Except String (List Row)
  update_dashboard : String → WriteDashboard → Except String Unit
  update_look : String → WriteLookWithQuery → Except String Unit
  scheduled_plan_run_once : WriteScheduledPlan → Except String String
  today : String

/-- An uncaught Python exception escaping `main`: a `KeyError` from a
selector, or an SDK/parse error from an uncaught remote call. -/
inductive PyErr
  | keyError (key : String)
  | sdkError (msg : String)
deriving DecidableEq, Repr

/-- `DAYS_BEFORE_SOFT_DELETE` of `src/main.py`. -/
def DAYS_BEFORE_SOFT_DELETE : Int := 90

/-- `DAYS_BEFORE_HARD_DELETE` of `src/main.py`. -/
def DAYS_BEFORE_HARD_DELETE : Int := 90

/-- `NOTIFICATION_EMAIL_ADDRESS` of `src/main.py`. -/
def NOTIFICATION_EMAIL_ADDRESS : String := "email@address.com"

/-- The `WriteQuery` literal built inside `get_unused_content_query_id`. -/
def unused_content_query (days : Int) : WriteQuery :=
  { model := "system__activity"
    view := "content_usage"
    fields := [
      "dashboard.id",
      "look.id",
      "content_usage.content_title",
      "content_usage.content_type",
      "content_usage.last_accessed_date"]
    pivots := none
    fill_fields := none
    filters := [
      ("content_usage.days_since_last_accessed", ">" ++ toString days),
      ("content_usage.content_type", "dashboard,look"),
      ("_dashboard_linked_looks.is_used_on_dashboard", "No"),
      ("look.public", "No")]
    filter_expression := some
      "if(is_null($\x7bdashboard.deleted_date\x7d) = no OR is_null($\x7blook.deleted_date\x7d) = no,no,yes)"
    sorts := ["content_usage.last_accessed_date"]
    limit := "50000"
    dynamic_fields := none }

/-- `get_unused_content_query_id` of `src/main.py`: registers the unused-content
query with the remote engine and returns its id (a `create_query` failure
propagates). -/
def get_unused_content_query_id (env : Env) (days : Int) : Except String String :=
  env.create_query (unused_content_query days)

/-- `get_unused_content` of `src/main.py`: runs the query and parses the JSON
rows (failures propagate). -/
def get_unused_content (env : Env) (query_id : String) : Except String (List Row) :=
  env.run_query query_id

/-- The `WriteQuery` literal built inside `get_deleted_content_query_id`
(`dynamic_fields` reproduces the Python string literal, including the spaces
its line continuations keep). -/
def deleted_content_query (days : Int) : WriteQuery :=
  { model := "system__activity"
    view := "content_usage"
    fields := [
      "dashboard.id",
      "look.id",
      "content_usage.content_title",
      "content_usage.content_type",
      "content_usage.last_accessed_date",
      "dashboard.deleted_date",
      "look.deleted_date"]
    pivots := none
    fill_fields := none
    filters := [
      ("content_usage.content_type", "dashboard,look"),
      ("days_since_moved_to_trash", ">" ++ toString days)]
    filter_expression := some
      "if(is_null($\x7bdashboard.deleted_date\x7d) = no OR is_null($\x7blook.deleted_date\x7d) = no,yes,no)"
    sorts := ["content_usage.last_accessed_date"]
    limit := "50000"
    dynamic_fields := some
      ("[\x7b\"category\":\"dimension\","
        ++ "            \"expression\":\"diff_days(coalesce($\x7bdashboard.deleted_date\x7d,$\x7blook.deleted_date\x7d), now())\","
        ++ "            \"label\":\"Days Since Moved to Trash\","
        ++ "            \"value_format\":null,"
        ++ "            \"value_format_name\":null,"
        ++ "            \"dimension\":\"days_since_moved_to_trash\","
        ++ "            \"_kind_hint\":\"dimension\","
        ++ "            \"_type_hint\":\"number\"\x7d]") }

/-- `get_deleted_content_query_id` of `src/main.py`. -/
def get_deleted_content_query_id (env : Env) (days : Int) : Except String String :=
  env.create_query (deleted_content_query days)

/-- `get_deleted_content` of `src/main.py`. -/
def get_deleted_content (env : Env) (query_id : String) : Except String (List Row) :=
  env.run_query query_id

/-- Python `str.capitalize`: first character upper-cased, the rest lower-cased. -/
def pyCapitalize (s : String) : String :=
  match s.data with
  | [] => ""
  | c :: cs => ⟨Char.toUpper c :: cs.map Char.toLower⟩

/-- The `WriteScheduledPlan` literal built inside `send_content_notification`
(the 8 spaces before `Note,` are kept by the f-string's line continuation). -/
def notification_plan (query_id delete_type address date_today : String) :
    WriteScheduledPlan :=
  { name := "[Looker Automation] " ++ pyCapitalize delete_type
      ++ " deleted content (" ++ date_today ++ ")."
    query_id := query_id
    scheduled_plan_destination := [
      { format := "csv"
        type := "email"
        address := address
        message := "List of dashboards and Looks that were " ++ delete_type
          ++ " deleted on " ++ date_today
          ++ ".        Note, LookML dashboards are unaffected by this automation, the dashboard lkml file has to be deleted from its LookML project."
        apply_formatting := false
        apply_vis := false }] }

/-- Outcome of `send_content_notification`: the scheduled-plan object returned
by the SDK on success, or the error string built in the `except` branch. -/
inductive NotifyResult
  | sent (plan : String)
  | failed (msg : String)
deriving DecidableEq, Repr

/-- `send_content_notification` of `src/main.py`: schedules the one-off email
and catches any exception of the `scheduled_plan_run_once` call, returning the
error string instead.  Also reports the remote call it attempted. -/
def send_content_notification (env : Env) (query_id delete_type address : String) :
    NotifyResult × RemoteCall :=
  let date_today := env.today
  let plan := notification_plan query_id delete_type address date_today
  (match env.scheduled_plan_run_once plan with
    | Except.ok r => NotifyResult.sent r
    | Except.error e => NotifyResult.failed
        ("Error sending " ++ delete_type ++ " delete email notification ("
          ++ date_today ++ "): " ++ e),
    RemoteCall.scheduled_plan_run_once plan)

/-- `soft_delete_dashboard` of `src/main.py`: issues `update_dashboard` with
`WriteDashboard(deleted=False)` (the dry-run literal) and catches any
exception, returning an outcome string either way, plus the calls issued. -/
def soft_delete_dashboard (env : Env) (dashboard_id : Value) :
    String × List RemoteCall :=
  let dashboard : WriteDashboard := { deleted := some false }
  let i := dashboard_id.pyStr
  (match env.update_dashboard i dashboard with
    | Except.ok _ => "Successfully soft deleted dashboard: " ++ i
    | Except.error e => "Error with soft deleting dashboard (" ++ i ++ "): " ++ e,
    [RemoteCall.update_dashboard i dashboard])

/-- `soft_delete_look` of `src/main.py`: issues `update_look` with
`WriteLookWithQuery(deleted=False)` and catches any exception. -/
def soft_delete_look (env : Env) (look_id : Value) : String × List RemoteCall :=
  let look : WriteLookWithQuery := { deleted := some false }
  let i := look_id.pyStr
  (match env.update_look i look with
    | Except.ok _ => "Successfully soft deleted Look: " ++ i
    | Except.error e => "Error with soft deleting Look (" ++ i ++ "): " ++ e,
    [RemoteCall.update_look i look])

/-- `hard_delete_dashboard` of `src/main.py`: the `sdk.delete_dashboard` line
is commented out, so no remote call is issued and the success string is
returned unconditionally. -/
def hard_delete_dashboard (dashboard_id : Value) : String × List RemoteCall :=
  ("Successfully permanently deleted dashboard: " ++ dashboard_id.pyStr, [])

/-- `hard_delete_look` of `src/main.py`: the `sdk.delete_look` line is
commented out, so no remote call is issued and the success string is returned
unconditionally. -/
def hard_delete_look (look_id : Value) : String × List RemoteCall :=
  ("Successfully permanently deleted Look: " ++ look_id.pyStr, [])

/-- One of `main`'s `for` loops: applies the mutation to every id in order,
collecting the outcome strings and concatenating the issued calls. -/
def run_batch (f : Value → String × List RemoteCall) :
    List Value → List String × List RemoteCall
  | [] => ([], [])
  | i :: rest =>
    let r := f i
    let rs := run_batch f rest
    (r.1 :: rs.1, r.2 ++ rs.2)

/-- `main` of `src/main.py`: the two passes (unused → soft delete, trashed →
hard delete), each running a query, mutating dashboards then Looks, and
scheduling a notification email.  Returns the status string and the full trace
of remote calls; uncaught exceptions surface as `Except.error`. -/
def main (env : Env) : Except PyErr (String × List RemoteCall) :=
  match get_unused_content_query_id env DAYS_BEFORE_SOFT_DELETE with
  | Except.error e => Except.error (PyErr.sdkError e)
  | Except.ok unused_qid =>
  match get_unused_content env unused_qid with
  | Except.error e => Except.error (PyErr.sdkError e)
  | Except.ok unused_content =>
  match get_dashboard_ids unused_content with
  | Except.error e => Except.error (PyErr.keyError e.key)
  | Except.ok unused_dashboard_ids =>
  match get_look_ids unused_content with
  | Except.error e => Except.error (PyErr.keyError e.key)
  | Except.ok unused_look_ids =>
  let soft_dash := run_batch (soft_delete_dashboard env) unused_dashboard_ids
  let soft_look := run_batch (soft_delete_look env) unused_look_ids
  let notify_soft := send_content_notification env unused_qid "soft"
    NOTIFICATION_EMAIL_ADDRESS
  match get_deleted_content_query_id env DAYS_BEFORE_HARD_DELETE with
  | Except.error e => Except.error (PyErr.sdkError e)
  | Except.ok deleted_qid =>
  match get_deleted_content env deleted_qid with
  | Except.error e => Except.error (PyErr.sdkError e)
  | Except.ok deleted_content =>
  match get_dashboard_ids deleted_content with
  | Except.error e => Except.error (PyErr.keyError e.key)
  | Except.ok deleted_dashboard_ids =>
  match get_look_ids deleted_content with
  | Except.error e => Except.error (PyErr.keyError e.key)
  | Except.ok deleted_look_ids =>
  let hard_dash := run_batch hard_delete_dashboard deleted_dashboard_ids
  let hard_look := run_batch hard_delete_look deleted_look_ids
  let notify_hard := send_content_notification env deleted_qid "hard"
    NOTIFICATION_EMAIL_ADDRESS
  Except.ok ("Successfully ran soft delete and hard delete content automation.",
    RemoteCall.create_query (unused_content_query DAYS_BEFORE_SOFT_DELETE)
      :: RemoteCall.run_query unused_qid
      :: (soft_dash.2 ++ soft_look.2 ++ [notify_soft.2]
        ++ RemoteCall.create_query (deleted_content_query DAYS_BEFORE_HARD_DELETE)
          :: RemoteCall.run_query deleted_qid
          :: (hard_dash.2 ++ hard_look.2 ++ [notify_hard.2])))

/-- Modelled from the spec: the remote query engine is external to this
repository; per §8, a filter string `">d"` on the numeric field
`days_since_last_accessed` keeps exactly the rows whose value is strictly
greater than `d`. -/
def gt_filter_matches (d x : Int) : Bool := decide (d < x)

/-- A run in which every remote call succeeds: queries get id `"q"`, results
are empty, updates and scheduling succeed. -/
def okEnv : Env :=
  { create_query := fun _ => Except.ok "q"
    run_query := fun _ => Except.ok []
    update_dashboard := fun _ _ => Except.ok ()
    update_look := fun _ _ => Except.ok ()
    scheduled_plan_run_once := fun _ => Except.ok "scheduled"
    today := "2026-10-12" }

/-- A run in which every mutating or scheduling remote call raises `"boom"`. -/
def failEnv : Env :=
  { create_query := fun _ => Except.ok "q"
    run_query := fun _ => Except.ok []
    update_dashboard := fun _ _ => Except.error "boom"
    update_look := fun _ _ => Except.error "boom"
    scheduled_plan_run_once := fun _ => Except.error "boom"
    today := "2026-10-12" }

/-- A batch whose per-item calls are singletons issues exactly one call per id,
in id order. -/
theorem run_batch_singleton_trace (f : Value → String × List RemoteCall)
    (c : Value → RemoteCall) (hf : ∀ i, (f i).2 = [c i]) :
    ∀ ids : List Value, (run_batch f ids).2 = ids.map c := by
  intro ids
  induction ids with
  | nil => rfl
  | cons i rest ih => simp [run_batch, hf, ih]

/-- A batch produces one outcome string per id. -/
theorem run_batch_length (f : Value → String × List RemoteCall) :
    ∀ ids : List Value, (run_batch f ids).1.length = ids.length := by
  intro ids
  induction ids with
  | nil => rfl
  | cons i rest ih => simp [run_batch, ih]

/-- Claim C1: for every dashboard id and look id, `soft_delete_dashboard` and
`soft_delete_look` under the dry-run configuration in the source issue their
remote update request with the `deleted` flag set to `False` (a no-op
deletion), regardless of the id passed in. -/
theorem soft_delete_is_dry_run (env : Env) (dashboard_id look_id : Value) :
    (soft_delete_dashboard env dashboard_id).2
      = [RemoteCall.update_dashboard dashboard_id.pyStr { deleted := some false }] ∧
    (soft_delete_look env look_id).2
      = [RemoteCall.update_look look_id.pyStr { deleted := some false }] :=
  ⟨rfl, rfl⟩

/-- Claim C2: for every id, `hard_delete_dashboard` and `hard_delete_look`
under the default configuration issue no remote call at all and still return
the permanent-deletion success string. -/
theorem hard_delete_is_noop (dashboard_id look_id : Value) :
    hard_delete_dashboard dashboard_id
      = ("Successfully permanently deleted dashboard: " ++ dashboard_id.pyStr, []) ∧
    hard_delete_look look_id
      = ("Successfully permanently deleted Look: " ++ look_id.pyStr, []) :=
  ⟨rfl, rfl⟩

/-- Claim C3: every mutation operation returns an outcome string (success or
error-with-cause) for any remote behaviour, never raising past its own
boundary, and each batch still issues one mutation attempt per id (and yields
one outcome per id) no matter which remote calls fail. -/
theorem mutations_return_outcomes_and_batches_are_isolated
    (env : Env) (i : Value) (ids : List Value) :
    ((soft_delete_dashboard env i).1 = "Successfully soft deleted dashboard: " ++ i.pyStr
      ∨ ∃ e, (soft_delete_dashboard env i).1
          = "Error with soft deleting dashboard (" ++ i.pyStr ++ "): " ++ e) ∧
    ((soft_delete_look env i).1 = "Successfully soft deleted Look: " ++ i.pyStr
      ∨ ∃ e, (soft_delete_look env i).1
          = "Error with soft deleting Look (" ++ i.pyStr ++ "): " ++ e) ∧
    (hard_delete_dashboard i).1
      = "Successfully permanently deleted dashboard: " ++ i.pyStr ∧
    (hard_delete_look i).1
      = "Successfully permanently deleted Look: " ++ i.pyStr ∧
    (run_batch (soft_delete_dashboard env) ids).2
      = ids.map (fun j => RemoteCall.update_dashboard j.pyStr { deleted := some false }) ∧
    (run_batch (soft_delete_look env) ids).2
      = ids.map (fun j => RemoteCall.update_look j.pyStr { deleted := some false }) ∧
    (run_batch (soft_delete_dashboard env) ids).1.length = ids.length ∧
    (run_batch (soft_delete_look env) ids).1.length = ids.length := by
  refine ⟨?_, ?_, rfl, rfl, ?_, ?_, run_batch_length _ ids, run_batch_length _ ids⟩
  · unfold soft_delete_dashboard
    cases h : env.update_dashboard i.pyStr { deleted := some false } with
    | ok r => left; simp [h]
    | error e => right; exact ⟨e, by simp [h]⟩
  · unfold soft_delete_look
    cases h : env.update_look i.pyStr { deleted := some false } with
    | ok r => left; simp [h]
    | error e => right; exact ⟨e, by simp [h]⟩
  · exact run_batch_singleton_trace _ _ (fun j => rfl) ids
  · exact run_batch_singleton_trace _ _ (fun j => rfl) ids

/-- Claim C6: for every threshold `d`, the query built by
`get_unused_content_query_id` sets the `content_usage.days_since_last_accessed`
filter to the literal string `">d"`, which under the engine's strict
greater-than reading excludes a row at exactly `d` days and includes one at
`d + 1`. -/
theorem unused_query_days_filter_is_strict (d : Int) :
    (unused_content_query d).filters.lookup "content_usage.days_since_last_accessed"
        = some (">" ++ toString d) ∧
    gt_filter_matches d d = false ∧ gt_filter_matches d (d + 1) = true := by
  refine ⟨rfl, ?_, ?_⟩
  · simp [gt_filter_matches]
  · simp [gt_filter_matches]

/-- Claim C7: a failure of the remote scheduling call inside
`send_content_notification` is caught and turned into the descriptive error
string containing `Error sending <kind> delete email notification`; it never
propagates past the function boundary. -/
theorem notification_failure_is_caught (env : Env)
    (query_id delete_type address e : String)
    (h : env.scheduled_plan_run_once
        (notification_plan query_id delete_type address env.today)
      = Except.error e) :
    (send_content_notification env query_id delete_type address).1
      = NotifyResult.failed ("Error sending " ++ delete_type
          ++ " delete email notification (" ++ env.today ++ "): " ++ e) := by
  unfold send_content_notification
  simp [h]

/-- At a concrete failing environment, the soft-delete notification error
string is produced rather than an exception. -/
theorem notification_failure_is_caught_witness :
    (send_content_notification failEnv "42" "soft" "email@address.com").1
      = NotifyResult.failed
          "Error sending soft delete email notification (2026-10-12): boom" :=
  notification_failure_is_caught failEnv "42" "soft" "email@address.com" "boom" rfl

/-- An error of `get_dashboard_ids` on the tail persists when a row is
prepended. -/
theorem get_dashboard_ids_error_cons (row : Row) (rest : List Row)
    (h : ∃ e, get_dashboard_ids rest = Except.error e) :
    ∃ e, get_dashboard_ids (row :: rest) = Except.error e := by
  obtain ⟨e, he⟩ := h
  cases hg : Row.get? row "content_usage.content_type" with
  | none =>
    exact ⟨⟨"content_usage.content_type"⟩, by simp [get_dashboard_ids, keyGet, hg]⟩
  | some ct =>
    by_cases hct : ct = Value.str "dashboard"
    · cases hd : Row.get? row "dashboard.id" with
      | none =>
        exact ⟨⟨"dashboard.id"⟩, by simp [get_dashboard_ids, keyGet, hg, hct, hd]⟩
      | some did =>
        by_cases hdn : did = Value.null
        · exact ⟨e, by simp [get_dashboard_ids, keyGet, hg, hct, hd, hdn, he]⟩
        · exact ⟨e, by simp [get_dashboard_ids, keyGet, hg, hct, hd, hdn, he]⟩
    · exact ⟨e, by simp [get_dashboard_ids, keyGet, hg, hct, he]⟩

/-- An error of `get_look_ids` on the tail persists when a row is prepended. -/
theorem get_look_ids_error_cons (row : Row) (rest : List Row)
    (h : ∃ e, get_look_ids rest = Except.error e) :
    ∃ e, get_look_ids (row :: rest) = Except.error e := by
  obtain ⟨e, he⟩ := h
  cases hg : Row.get? row "content_usage.content_type" with
  | none =>
    exact ⟨⟨"content_usage.content_type"⟩, by simp [get_look_ids, keyGet, hg]⟩
  | some ct =>
    by_cases hct : ct = Value.str "look"
    · cases hl : Row.get? row "look.id" with
      | none =>
        exact ⟨⟨"look.id"⟩, by simp [get_look_ids, keyGet, hg, hct, hl]⟩
      | some lid =>
        exact ⟨e, by simp [get_look_ids, keyGet, hg, hct, hl, he]⟩
    · exact ⟨e, by simp [get_look_ids, keyGet, hg, hct, he]⟩

/-- Claim C4: whenever `get_dashboard_ids` returns a result (no `KeyError`),
that result is exactly the spec's `dashboardIds` projection: the
`dashboard.id` values of dashboard-typed rows with a non-null id, in row
order, duplicates kept. -/
theorem get_dashboard_ids_matches_spec (content : List Row) (out : List Value)
    (h : get_dashboard_ids content = Except.ok out) :
    out = dashboardIdsSpec content := by
  induction content generalizing out with
  | nil =>
    simp only [get_dashboard_ids, Except.ok.injEq] at h
    simp [dashboardIdsSpec, ← h]
  | cons row rest ih =>
    cases hg : Row.get? row "content_usage.content_type" with
    | none => simp [get_dashboard_ids, keyGet, hg] at h
    | some ct =>
      by_cases hct : ct = Value.str "dashboard"
      · subst hct
        cases hd : Row.get? row "dashboard.id" with
        | none => simp [get_dashboard_ids, keyGet, hg, hd] at h
        | some did =>
          by_cases hdn : did = Value.null
          · subst hdn
            simp [get_dashboard_ids, keyGet, hg, hd] at h
            simp [dashboardIdsSpec, List.filterMap_cons, hg, hd, ih out h]
          · simp [get_dashboard_ids, keyGet, hg, hd, hdn] at h
            cases hr : get_dashboard_ids rest with
            | error e => rw [hr] at h; simp at h
            | ok tail =>
              rw [hr] at h
              simp only [Except.ok.injEq] at h
              subst h
              simp [dashboardIdsSpec, List.filterMap_cons, hg, hd, hdn, ih tail hr]
      · simp [get_dashboard_ids, keyGet, hg, hct] at h
        simp [dashboardIdsSpec, List.filterMap_cons, hg, hct, ih out h]

/-- At a mixed concrete row set with a duplicate, a null dashboard id and a
look row, `get_dashboard_ids` returns exactly the spec projection. -/
theorem get_dashboard_ids_matches_spec_witness :
    [Value.str "1", Value.str "1"] = dashboardIdsSpec [
      [("content_usage.content_type", Value.str "dashboard"),
        ("dashboard.id", Value.str "1")],
      [("content_usage.content_type", Value.str "look"),
        ("look.id", Value.str "9")],
      [("content_usage.content_type", Value.str "dashboard"),
        ("dashboard.id", Value.null)],
      [("content_usage.content_type", Value.str "dashboard"),
        ("dashboard.id", Value.str "1")]] :=
  get_dashboard_ids_matches_spec _ _ rfl

/-- Claim C5: whenever `get_look_ids` returns a result (no `KeyError`), that
result is exactly the spec's `lookIds` projection: the `look.id` value of
every look-typed row, taken as-is with no non-null filter, so a null look id
is kept. -/
theorem get_look_ids_matches_spec (content : List Row) (out : List Value)
    (h : get_look_ids content = Except.ok out) :
    out = lookIdsSpec content := by
  induction content generalizing out with
  | nil =>
    simp only [get_look_ids, Except.ok.injEq] at h
    simp [lookIdsSpec, ← h]
  | cons row rest ih =>
    cases hg : Row.get? row "content_usage.content_type" with
    | none => simp [get_look_ids, keyGet, hg] at h
    | some ct =>
      by_cases hct : ct = Value.str "look"
      · subst hct
        cases hl : Row.get? row "look.id" with
        | none => simp [get_look_ids, keyGet, hg, hl] at h
        | some lid =>
          simp [get_look_ids, keyGet, hg, hl] at h
          cases hr : get_look_ids rest with
          | error e => rw [hr] at h; simp at h
          | ok tail =>
            rw [hr] at h
            simp only [Except.ok.injEq] at h
            subst h
            simp [lookIdsSpec, List.filterMap_cons, hg, hl, ih tail hr]
      · simp [get_look_ids, keyGet, hg, hct] at h
        simp [lookIdsSpec, List.filterMap_cons, hg, hct, ih out h]

/-- At a concrete look-typed row whose `look.id` is null, `get_look_ids`
still returns that null (the documented asymmetry with `get_dashboard_ids`). -/
theorem get_look_ids_matches_spec_witness :
    [Value.null] = lookIdsSpec [
      [("content_usage.content_type", Value.str "look"),
        ("look.id", Value.null)],
      [("content_usage.content_type", Value.str "dashboard"),
        ("dashboard.id", Value.str "1")]] :=
  get_look_ids_matches_spec _ _ rfl

/-- Claim C10: a row lacking `content_usage.content_type` makes both selectors
raise a `KeyError`; a dashboard-typed row lacking `dashboard.id` makes
`get_dashboard_ids` raise; a look-typed row lacking `look.id` makes
`get_look_ids` raise — the row is never silently skipped. -/
theorem selectors_raise_keyerror_on_missing_keys (l : List Row) (row : Row)
    (hmem : row ∈ l) :
    (Row.get? row "content_usage.content_type" = none →
        (∃ e, get_dashboard_ids l = Except.error e) ∧
        (∃ e, get_look_ids l = Except.error e)) ∧
    (Row.get? row "content_usage.content_type" = some (Value.str "dashboard") →
      Row.get? row "dashboard.id" = none →
        ∃ e, get_dashboard_ids l = Except.error e) ∧
    (Row.get? row "content_usage.content_type" = some (Value.str "look") →
      Row.get? row "look.id" = none →
        ∃ e, get_look_ids l = Except.error e) := by
  induction l with
  | nil => cases hmem
  | cons r rest ih =>
    rcases List.mem_cons.mp hmem with hr | hr
    · subst hr
      refine ⟨fun hg => ⟨?_, ?_⟩, fun hg hd => ?_, fun hg hl => ?_⟩
      · exact ⟨⟨"content_usage.content_type"⟩, by simp [get_dashboard_ids, keyGet, hg]⟩
      · exact ⟨⟨"content_usage.content_type"⟩, by simp [get_look_ids, keyGet, hg]⟩
      · exact ⟨⟨"dashboard.id"⟩, by simp [get_dashboard_ids, keyGet, hg, hd]⟩
      · exact ⟨⟨"look.id"⟩, by simp [get_look_ids, keyGet, hg, hl]⟩
    · have hrest := ih hr
      refine ⟨fun hg => ⟨?_, ?_⟩, fun hg hd => ?_, fun hg hl => ?_⟩
      · exact get_dashboard_ids_error_cons r rest ((hrest.1 hg).1)
      · exact get_look_ids_error_cons r rest ((hrest.1 hg).2)
      · exact get_dashboard_ids_error_cons r rest (hrest.2.1 hg hd)
      · exact get_look_ids_error_cons r rest (hrest.2.2 hg hl)

/-- At the concrete one-row list whose row is the empty dict, both selectors
error out with a `KeyError`. -/
theorem selectors_raise_keyerror_on_missing_keys_witness :
    (∃ e, get_dashboard_ids [([] : Row)] = Except.error e) ∧
    (∃ e, get_look_ids [([] : Row)] = Except.error e) :=
  (selectors_raise_keyerror_on_missing_keys [[]] [] (by simp)).1 rfl

/-- A batch whose per-item operations issue no calls leaves the trace empty. -/
theorem run_batch_empty_trace (f : Value → String × List RemoteCall)
    (hf : ∀ i, (f i).2 = []) : ∀ ids : List Value, (run_batch f ids).2 = [] := by
  intro ids
  induction ids with
  | nil => rfl
  | cons i rest ih => simp [run_batch, hf, ih]

/-- Claim C8: in each pass of `main`, every dashboard mutation precedes every
look mutation, and within each content type the mutations happen in exactly
the order the ids appear in the query result — whose query is sorted
ascending by last-accessed date. -/
theorem main_mutates_dashboards_before_looks_in_query_order
    (env : Env) (qid1 qid2 : String) (rows1 rows2 : List Row)
    (dids1 lids1 dids2 lids2 : List Value)
    (h1 : get_unused_content_query_id env DAYS_BEFORE_SOFT_DELETE = Except.ok qid1)
    (h2 : get_unused_content env qid1 = Except.ok rows1)
    (h3 : get_dashboard_ids rows1 = Except.ok dids1)
    (h4 : get_look_ids rows1 = Except.ok lids1)
    (h5 : get_deleted_content_query_id env DAYS_BEFORE_HARD_DELETE = Except.ok qid2)
    (h6 : get_deleted_content env qid2 = Except.ok rows2)
    (h7 : get_dashboard_ids rows2 = Except.ok dids2)
    (h8 : get_look_ids rows2 = Except.ok lids2) :
    (main env).map Prod.snd = Except.ok (
      RemoteCall.create_query (unused_content_query DAYS_BEFORE_SOFT_DELETE)
        :: RemoteCall.run_query qid1
        :: (dids1.map (fun i =>
              RemoteCall.update_dashboard i.pyStr { deleted := some false })
          ++ lids1.map (fun i =>
              RemoteCall.update_look i.pyStr { deleted := some false })
          ++ [RemoteCall.scheduled_plan_run_once
              (notification_plan qid1 "soft" NOTIFICATION_EMAIL_ADDRESS env.today)]
          ++ RemoteCall.create_query (deleted_content_query DAYS_BEFORE_HARD_DELETE)
            :: RemoteCall.run_query qid2
            :: [RemoteCall.scheduled_plan_run_once
                (notification_plan qid2 "hard" NOTIFICATION_EMAIL_ADDRESS env.today)])) ∧
    (unused_content_query DAYS_BEFORE_SOFT_DELETE).sorts
      = ["content_usage.last_accessed_date"] ∧
    (deleted_content_query DAYS_BEFORE_HARD_DELETE).sorts
      = ["content_usage.last_accessed_date"] := by
  refine ⟨?_, rfl, rfl⟩
  unfold main
  simp only [h1, h2, h3, h4, h5, h6, h7, h8]
  simp [run_batch_singleton_trace (soft_delete_dashboard env)
      (fun i => RemoteCall.update_dashboard i.pyStr { deleted := some false })
      (fun j => rfl) dids1,
    run_batch_singleton_trace (soft_delete_look env)
      (fun i => RemoteCall.update_look i.pyStr { deleted := some false })
      (fun j => rfl) lids1,
    run_batch_empty_trace hard_delete_dashboard (fun j => rfl) dids2,
    run_batch_empty_trace hard_delete_look (fun j => rfl) lids2,
    send_content_notification, Except.map]

/-- At a concrete all-succeeding environment, `main`'s remote-call trace is
the two passes in order, with no mutation calls for the empty result sets. -/
theorem main_mutates_dashboards_before_looks_in_query_order_witness :
    (main okEnv).map Prod.snd = Except.ok [
      RemoteCall.create_query (unused_content_query DAYS_BEFORE_SOFT_DELETE),
      RemoteCall.run_query "q",
      RemoteCall.scheduled_plan_run_once
        (notification_plan "q" "soft" NOTIFICATION_EMAIL_ADDRESS "2026-10-12"),
      RemoteCall.create_query (deleted_content_query DAYS_BEFORE_HARD_DELETE),
      RemoteCall.run_query "q",
      RemoteCall.scheduled_plan_run_once
        (notification_plan "q" "hard" NOTIFICATION_EMAIL_ADDRESS "2026-10-12")] :=
  (main_mutates_dashboards_before_looks_in_query_order okEnv "q" "q" [] [] [] [] [] []
    rfl rfl rfl rfl rfl rfl rfl rfl).1

/-- Claim C9: whenever both passes complete, `main` returns the single fixed
status string, regardless of the per-item mutation outcomes and notification
outcomes (which are discarded, not aggregated into the return value). -/
theorem main_returns_fixed_status (env : Env) (s : String) (tr : List RemoteCall)
    (h : main env = Except.ok (s, tr)) :
    s = "Successfully ran soft delete and hard delete content automation." := by
  unfold main at h
  repeat' split at h
  all_goals simp_all

/-- At a concrete all-succeeding environment, both passes complete and the
fixed status string is returned. -/
theorem main_returns_fixed_status_witness :
    "Successfully ran soft delete and hard delete content automation."
      = "Successfully ran soft delete and hard delete content automation." :=
  main_returns_fixed_status okEnv _ _ rfl

end Looker
